import Mathlib

/-!
Shallow embedding of the SNMP subtree bulk-walk engine of `snmp.c`
(`bulkwalk`, `add_responses`, and the constants they use).

The device side (the Net-SNMP transport) is abstracted as a list of
exchange outcomes consumed one per loop iteration: each outcome is either
a transport-level request failure (the `request` helper returning a
non-NULL error string) or a decoded response PDU carrying a protocol
status and a list of variable bindings.  Value rendering
(`sprint_realloc_value`) is external-library behaviour and is modelled by
carrying the rendered string inside each binding.
-/

namespace Snmp

/-- Constant `PRINTER_OID` from snmp.c: the printer-management subtree root
`1.3.6.1.2.1.43`. -/
def PRINTER_OID : List Nat := [1, 3, 6, 1, 2, 1, 43]

/-- Constant `PRINTER_OID_LEN` from snmp.c (7). -/
def PRINTER_OID_LEN : Nat := 7

/-- Constant `MAX_REPETITIONS` from snmp.c: the starting GETBULK batch size (64). -/
def MAX_REPETITIONS : Nat := 64

/-- The SNMP protocol status `SNMP_ERR_NOERROR` (0). -/
def SNMP_ERR_NOERROR : Int := 0

/-- The SNMP protocol status `SNMP_ERR_TOOBIG` (1). -/
def SNMP_ERR_TOOBIG : Int := 1

/-- One variable binding of a response PDU (`struct variable_list`):
an OID together with its rendered value string. -/
structure Binding where
  name : List Nat
  value : String
deriving DecidableEq

/-- Type `struct oid_value` from snmp.h: one accepted OID-value pair of the
result list. -/
structure OidValue where
  name : List Nat
  value : String
deriving DecidableEq

/-- Conversion performed by `add_responses` when it accepts a binding:
copy the OID and the rendered value into a fresh `oid_value` node. -/
def ovOf (v : Binding) : OidValue :=
  ⟨v.name, v.value⟩

/-- One exchange outcome as observed by the walk loop: either the
`request` helper fails at transport/session level (returning the session
error string), or a response PDU arrives with a protocol status
`errstat` and bindings `vars`.  `sessErrStr` is the session's last error
string as reported by `session_error` for that exchange. -/
inductive DevResponse where
  | reqErr (sessErrStr : String)
  | resp (errstat : Int) (vars : List Binding) (sessErrStr : String)
deriving DecidableEq

/-- Function `add_responses` from snmp.c.  Walks the binding list in order; a
binding whose OID is shorter than `PRINTER_OID_LEN` or whose first
`PRINTER_OID_LEN` components differ from `PRINTER_OID` is the subtree
boundary: the cursor length is zeroed (modelled as the empty cursor) and
no further binding is accepted.  Every accepted binding is appended to
the result list and becomes the new cursor.  Returns the accepted
OID-value pairs and the updated cursor (`name`/`name_length`). -/
def add_responses : List Binding → List Nat → List OidValue × List Nat
  | [], name => ([], name)
  | v :: rest, name =>
    if v.name.length < PRINTER_OID_LEN ∨ v.name.take PRINTER_OID_LEN ≠ PRINTER_OID then
      ([], [])
    else
      let r := add_responses rest v.name
      (ovOf v :: r.1, r.2)

/-- How one run of the walk loop ended. -/
inductive ExitReason where
  /-- The modelled response list was exhausted while the loop would still
  issue another request. -/
  | pending
  /-- Helper `request` returned a transport/session error; `break` after
  `add_error`. -/
  | reqError
  /-- A binding outside the printer subtree zeroed the cursor;
  `break` with no error. -/
  | boundary
  /-- TOOBIG arrived while `max_repetitions <= 1`; `break` with no
  error. -/
  | toobigFloor
  /-- A protocol status other than NOERROR/TOOBIG; `break` after
  `add_error`. -/
  | statusError
  /-- Opening failed (`snmp_sess_open` returned NULL); no request was ever issued. -/
  | openFail
deriving DecidableEq

/-- Result of running the walk loop of `bulkwalk`, instrumented with the
request trace (the `(name, max_repetitions)` pair of every GETBULK
issued), the number of TOOBIG responses consumed, the number of halvings
of `max_repetitions`, and the loop state when it stopped. -/
structure WalkResult where
  ovs : List OidValue
  errors : List String
  exit : ExitReason
  trace : List (List Nat × Nat)
  toobigCount : Nat
  halvings : Nat
  finalName : List Nat
  finalMaxRep : Nat
deriving DecidableEq

/-- The `while (1)` loop of `bulkwalk`, consuming one modelled exchange
outcome per iteration.  `name` is the cursor OID, `maxRep` the current
`max_repetitions`.  Mirrors snmp.c lines 143-183: transport error →
record `"SNMP request error: ..."` and stop; NOERROR → `add_responses`,
stop without error if the cursor was zeroed; TOOBIG → stop silently at
the floor (`maxRep ≤ 1`), otherwise halve and retry with the same
cursor; any other status → record
`"SNMP response error (<status>): ..."` and stop. -/
def walkLoop : List DevResponse → List Nat → Nat → WalkResult
  | [], name, maxRep => ⟨[], [], .pending, [], 0, 0, name, maxRep⟩
  | .reqErr s :: _, name, maxRep =>
    ⟨[], ["SNMP request error: " ++ s], .reqError, [(name, maxRep)], 0, 0, name, maxRep⟩
  | .resp errstat vars sessErr :: rest, name, maxRep =>
    if errstat = SNMP_ERR_NOERROR then
      let ar := add_responses vars name
      if ar.2.length = 0 then
        ⟨ar.1, [], .boundary, [(name, maxRep)], 0, 0, ar.2, maxRep⟩
      else
        let w := walkLoop rest ar.2 maxRep
        ⟨ar.1 ++ w.ovs, w.errors, w.exit, (name, maxRep) :: w.trace,
          w.toobigCount, w.halvings, w.finalName, w.finalMaxRep⟩
    else if errstat = SNMP_ERR_TOOBIG then
      if maxRep ≤ 1 then
        ⟨[], [], .toobigFloor, [(name, maxRep)], 1, 0, name, maxRep⟩
      else
        let w := walkLoop rest name (maxRep / 2)
        ⟨w.ovs, w.errors, w.exit, (name, maxRep) :: w.trace,
          w.toobigCount + 1, w.halvings + 1, w.finalName, w.finalMaxRep⟩
    else
      ⟨[], ["SNMP response error (" ++ toString errstat ++ "): " ++ sessErr],
        .statusError, [(name, maxRep)], 0, 0, name, maxRep⟩

/-- Type `struct bulkwalk_response` from snmp.h: the ordered value list and
the ordered error-message list handed back to the caller. -/
structure BulkwalkResponse where
  ovs : List OidValue
  errors : List String
deriving DecidableEq

/-- One full run of `bulkwalk`, instrumented: the caller-visible
response, how the walk ended, the request trace, TOOBIG statistics, and
how many times `snmp_sess_close` was invoked. -/
structure BulkwalkRun where
  response : BulkwalkResponse
  exit : ExitReason
  trace : List (List Nat × Nat)
  toobigCount : Nat
  halvings : Nat
  closeCount : Nat
deriving DecidableEq

/-- Function `bulkwalk` from snmp.c.  `openErr = some s` models `snmp_sess_open`
returning NULL with `open_error` string `s`: the function records
`"Open SNMP session error: ..."` and returns at once, before any request
and before `snmp_sess_close`.  Otherwise the loop starts at cursor
`PRINTER_OID` with `max_repetitions = MAX_REPETITIONS`, and
`snmp_sess_close` runs exactly once after the loop. -/
def bulkwalk (openErr : Option String) (resps : List DevResponse) : BulkwalkRun :=
  match openErr with
  | some s =>
    ⟨⟨[], ["Open SNMP session error: " ++ s]⟩, .openFail, [], 0, 0, 0⟩
  | none =>
    let w := walkLoop resps PRINTER_OID MAX_REPETITIONS
    ⟨⟨w.ovs, w.errors⟩, w.exit, w.trace, w.toobigCount, w.halvings, 1⟩

/-- The acceptance condition of `add_responses`: the binding's OID has
at least `PRINTER_OID_LEN` components and its first `PRINTER_OID_LEN`
components equal `PRINTER_OID` component-wise. -/
def underRoot (v : Binding) : Prop :=
  PRINTER_OID_LEN ≤ v.name.length ∧ v.name.take PRINTER_OID_LEN = PRINTER_OID

instance underRoot.dec (v : Binding) : Decidable (underRoot v) :=
  inferInstanceAs (Decidable (_ ∧ _))

/-- Strict lexicographic order on OIDs (component-wise, left to right;
a proper initial segment is smaller). -/
def oidLt : List Nat → List Nat → Prop
  | _, [] => False
  | [], _ :: _ => True
  | a :: as, b :: bs => a < b ∨ (a = b ∧ oidLt as bs)

instance oidLt.dec : (x y : List Nat) → Decidable (oidLt x y)
  | [], [] => isFalse id
  | _ :: _, [] => isFalse id
  | [], _ :: _ => isTrue trivial
  | a :: as, b :: bs =>
    have : Decidable (oidLt as bs) := oidLt.dec as bs
    inferInstanceAs (Decidable (a < b ∨ (a = b ∧ oidLt as bs)))

/-- The bindings of an exchange outcome that the walker can accept:
only a NOERROR response PDU ever reaches `add_responses`. -/
def noerrorVars : DevResponse → List Binding
  | .reqErr _ => []
  | .resp errstat vars _ => if errstat = SNMP_ERR_NOERROR then vars else []

/-- A NOERROR response PDU carries at least one variable binding (as any
conforming GETBULK responder guarantees). -/
def nonemptyNoerror : DevResponse → Prop
  | .reqErr _ => True
  | .resp errstat vars _ => errstat = SNMP_ERR_NOERROR → vars ≠ []

instance nonemptyNoerror.dec : (r : DevResponse) → Decidable (nonemptyNoerror r)
  | .reqErr _ => isTrue trivial
  | .resp errstat vars _ =>
    inferInstanceAs (Decidable (errstat = SNMP_ERR_NOERROR → vars ≠ []))

/-- Between two exchange outcomes, every acceptable binding of the first
is lexicographically below every acceptable binding of the second. -/
def varsBelow (r r' : DevResponse) : Prop :=
  ∀ b ∈ noerrorVars r, ∀ b' ∈ noerrorVars r', oidLt b.name b'.name

instance varsBelow.dec : (r r' : DevResponse) → Decidable (varsBelow r r') :=
  fun r r' =>
    inferInstanceAs (Decidable (∀ b ∈ noerrorVars r, ∀ b' ∈ noerrorVars r', oidLt b.name b'.name))

/-- Device well-behavedness per GETBULK semantics: every NOERROR batch
is non-empty, every returned binding lies lexicographically after the
root, and successive batches return strictly increasing OIDs. -/
def wellBehaved (resps : List DevResponse) : Prop :=
  (∀ r ∈ resps, nonemptyNoerror r) ∧
  (∀ b ∈ (resps.map noerrorVars).flatten, oidLt PRINTER_OID b.name) ∧
  List.Pairwise varsBelow resps

theorem oidLt_irrefl : ∀ x : List Nat, ¬ oidLt x x
  | [] => id
  | a :: as => fun h => by
    have h' : a < a ∨ (a = a ∧ oidLt as as) := h
    rcases h' with h' | ⟨-, h'⟩
    · omega
    · exact oidLt_irrefl as h'

theorem oidLt_trans : ∀ x y z : List Nat, oidLt x y → oidLt y z → oidLt x z
  | _x, y, [], _h1, h2 => by cases y <;> exact (h2 : False).elim
  | x, [], _z :: _zs, h1, _h2 => by cases x <;> exact (h1 : False).elim
  | [], _y :: _ys, _z :: _zs, _h1, _h2 => trivial
  | a :: as, b :: bs, c :: cs, h1, h2 => by
    have h1' : a < b ∨ (a = b ∧ oidLt as bs) := h1
    have h2' : b < c ∨ (b = c ∧ oidLt bs cs) := h2
    show a < c ∨ (a = c ∧ oidLt as cs)
    rcases h1' with h1' | ⟨rfl, h1'⟩ <;> rcases h2' with h2' | ⟨rfl, h2'⟩
    · exact Or.inl (h1'.trans h2')
    · exact Or.inl h1'
    · exact Or.inl h2'
    · exact Or.inr ⟨rfl, oidLt_trans as bs cs h1' h2'⟩

theorem oidLt_ne {x y : List Nat} (h : oidLt x y) : x ≠ y := by
  rintro rfl
  exact oidLt_irrefl x h

theorem underRoot_iff (v : Binding) :
    underRoot v ↔
      ¬ (v.name.length < PRINTER_OID_LEN ∨ v.name.take PRINTER_OID_LEN ≠ PRINTER_OID) := by
  unfold underRoot
  push_neg
  exact Iff.rfl

theorem add_responses_mem : ∀ (vars : List Binding) (name : List Nat),
    ∀ ov ∈ (add_responses vars name).1, underRoot ⟨ov.name, ov.value⟩
  | [], name => by simp [add_responses]
  | v :: rest, name => by
    intro ov hov
    by_cases hb : v.name.length < PRINTER_OID_LEN ∨ v.name.take PRINTER_OID_LEN ≠ PRINTER_OID
    · simp [add_responses, if_pos hb] at hov
    · simp only [add_responses, if_neg hb, List.mem_cons] at hov
      rcases hov with rfl | hov
      · exact (underRoot_iff v).mpr hb
      · exact add_responses_mem rest v.name ov hov

theorem add_responses_cursor : ∀ (vars : List Binding) (name : List Nat),
    (vars = [] ∧ (add_responses vars name).2 = name) ∨
      (add_responses vars name).2 = [] ∨
      (add_responses vars name).2 ∈ vars.map Binding.name
  | [], name => Or.inl ⟨rfl, rfl⟩
  | v :: rest, name => by
    by_cases hb : v.name.length < PRINTER_OID_LEN ∨ v.name.take PRINTER_OID_LEN ≠ PRINTER_OID
    · simp [add_responses, if_pos hb]
    · simp only [add_responses, if_neg hb, List.map_cons, List.mem_cons]
      rcases add_responses_cursor rest v.name with ⟨-, h⟩ | h | h
      · exact Or.inr (Or.inr (Or.inl h))
      · exact Or.inr (Or.inl h)
      · exact Or.inr (Or.inr (Or.inr h))

theorem add_responses_boundary (pre : List Binding) (b : Binding) (post : List Binding) :
    ∀ name, (∀ v ∈ pre, underRoot v) → ¬ underRoot b →
      add_responses (pre ++ b :: post) name = (pre.map ovOf, []) := by
  induction pre with
  | nil =>
    intro name _ hb
    rw [underRoot_iff, not_not] at hb
    simp [add_responses, if_pos hb]
  | cons v pre ih =>
    intro name hpre hb
    have hv : underRoot v := hpre v (List.mem_cons_self v pre)
    rw [underRoot_iff] at hv
    have hrec := ih v.name (fun u hu => hpre u (List.mem_cons_of_mem v hu)) hb
    simp [add_responses, if_neg hv, hrec]

theorem walkLoop_nil (name : List Nat) (m : Nat) :
    walkLoop [] name m = ⟨[], [], .pending, [], 0, 0, name, m⟩ := rfl

theorem walkLoop_reqErr (s : String) (rest : List DevResponse) (name : List Nat) (m : Nat) :
    walkLoop (.reqErr s :: rest) name m =
      ⟨[], ["SNMP request error: " ++ s], .reqError, [(name, m)], 0, 0, name, m⟩ := rfl

theorem walkLoop_noerror_boundary (vars : List Binding) (s : String)
    (rest : List DevResponse) (name : List Nat) (m : Nat)
    (hz : (add_responses vars name).2 = []) :
    walkLoop (.resp 0 vars s :: rest) name m =
      ⟨(add_responses vars name).1, [], .boundary, [(name, m)], 0, 0,
        (add_responses vars name).2, m⟩ := by
  simp [walkLoop, SNMP_ERR_NOERROR, hz]

theorem walkLoop_noerror_cont (vars : List Binding) (s : String)
    (rest : List DevResponse) (name : List Nat) (m : Nat)
    (hz : (add_responses vars name).2 ≠ []) :
    walkLoop (.resp 0 vars s :: rest) name m =
      ⟨(add_responses vars name).1 ++ (walkLoop rest (add_responses vars name).2 m).ovs,
        (walkLoop rest (add_responses vars name).2 m).errors,
        (walkLoop rest (add_responses vars name).2 m).exit,
        (name, m) :: (walkLoop rest (add_responses vars name).2 m).trace,
        (walkLoop rest (add_responses vars name).2 m).toobigCount,
        (walkLoop rest (add_responses vars name).2 m).halvings,
        (walkLoop rest (add_responses vars name).2 m).finalName,
        (walkLoop rest (add_responses vars name).2 m).finalMaxRep⟩ := by
  simp [walkLoop, SNMP_ERR_NOERROR, hz]

theorem walkLoop_toobig_floor (vars : List Binding) (s : String)
    (rest : List DevResponse) (name : List Nat) (m : Nat) (hm : m ≤ 1) :
    walkLoop (.resp 1 vars s :: rest) name m =
      ⟨[], [], .toobigFloor, [(name, m)], 1, 0, name, m⟩ := by
  simp [walkLoop, SNMP_ERR_NOERROR, SNMP_ERR_TOOBIG, hm]

theorem walkLoop_toobig_halve (vars : List Binding) (s : String)
    (rest : List DevResponse) (name : List Nat) (m : Nat) (hm : ¬ m ≤ 1) :
    walkLoop (.resp 1 vars s :: rest) name m =
      ⟨(walkLoop rest name (m / 2)).ovs,
        (walkLoop rest name (m / 2)).errors,
        (walkLoop rest name (m / 2)).exit,
        (name, m) :: (walkLoop rest name (m / 2)).trace,
        (walkLoop rest name (m / 2)).toobigCount + 1,
        (walkLoop rest name (m / 2)).halvings + 1,
        (walkLoop rest name (m / 2)).finalName,
        (walkLoop rest name (m / 2)).finalMaxRep⟩ := by
  simp [walkLoop, SNMP_ERR_NOERROR, SNMP_ERR_TOOBIG, hm]

theorem walkLoop_status (e : Int) (vars : List Binding) (s : String)
    (rest : List DevResponse) (name : List Nat) (m : Nat)
    (he : e ≠ 0) (ht : e ≠ 1) :
    walkLoop (.resp e vars s :: rest) name m =
      ⟨[], ["SNMP response error (" ++ toString e ++ "): " ++ s], .statusError,
        [(name, m)], 0, 0, name, m⟩ := by
  simp [walkLoop, SNMP_ERR_NOERROR, SNMP_ERR_TOOBIG, he, ht]

theorem walkLoop_errors_len : ∀ (resps : List DevResponse) (name : List Nat) (m : Nat),
    (walkLoop resps name m).errors.length ≤ 1
  | [], _name, _m => by simp [walkLoop]
  | .reqErr _s :: _rest, _name, _m => by simp [walkLoop]
  | .resp e vars s :: rest, name, m => by
    by_cases he : e = (0 : Int)
    · by_cases hz : (add_responses vars name).2 = []
      · simp [walkLoop, SNMP_ERR_NOERROR, he, hz]
      · simpa [walkLoop, SNMP_ERR_NOERROR, he, hz] using
          walkLoop_errors_len rest (add_responses vars name).2 m
    · by_cases ht : e = (1 : Int)
      · by_cases hm : m ≤ 1
        · simp [walkLoop, SNMP_ERR_NOERROR, SNMP_ERR_TOOBIG, ht, hm]
        · simpa [walkLoop, SNMP_ERR_NOERROR, SNMP_ERR_TOOBIG, ht, hm] using
            walkLoop_errors_len rest name (m / 2)
      · simp [walkLoop, SNMP_ERR_NOERROR, SNMP_ERR_TOOBIG, he, ht]

theorem walkLoop_ovs_mem : ∀ (resps : List DevResponse) (name : List Nat) (m : Nat),
    ∀ ov ∈ (walkLoop resps name m).ovs, underRoot ⟨ov.name, ov.value⟩
  | [], _name, _m => by simp [walkLoop]
  | .reqErr _s :: _rest, _name, _m => by simp [walkLoop]
  | .resp e vars s :: rest, name, m => by
    intro ov hov
    by_cases he : e = (0 : Int)
    · by_cases hz : (add_responses vars name).2 = []
      · simp [walkLoop, SNMP_ERR_NOERROR, he, hz] at hov
        exact add_responses_mem vars name ov hov
      · simp [walkLoop, SNMP_ERR_NOERROR, he, hz] at hov
        rcases hov with hov | hov
        · exact add_responses_mem vars name ov hov
        · exact walkLoop_ovs_mem rest (add_responses vars name).2 m ov hov
    · by_cases ht : e = (1 : Int)
      · by_cases hm : m ≤ 1
        · simp [walkLoop, SNMP_ERR_NOERROR, SNMP_ERR_TOOBIG, ht, hm] at hov
        · simp [walkLoop, SNMP_ERR_NOERROR, SNMP_ERR_TOOBIG, ht, hm] at hov
          exact walkLoop_ovs_mem rest name (m / 2) ov hov
      · simp [walkLoop, SNMP_ERR_NOERROR, SNMP_ERR_TOOBIG, he, ht] at hov

theorem walkLoop_trace_bounds : ∀ (resps : List DevResponse) (name : List Nat) (m : Nat),
    ∀ p ∈ (walkLoop resps name m).trace, p.2 ≤ m ∧ (1 ≤ m → 1 ≤ p.2)
  | [], _name, _m => by simp [walkLoop]
  | .reqErr _s :: _rest, _name, _m => by simp [walkLoop]
  | .resp e vars s :: rest, name, m => by
    intro p hp
    by_cases he : e = (0 : Int)
    · by_cases hz : (add_responses vars name).2 = []
      · simp [walkLoop, SNMP_ERR_NOERROR, he, hz] at hp
        simp [hp]
      · simp [walkLoop, SNMP_ERR_NOERROR, he, hz] at hp
        rcases hp with rfl | hp
        · simp
        · exact walkLoop_trace_bounds rest (add_responses vars name).2 m p hp
    · by_cases ht : e = (1 : Int)
      · by_cases hm : m ≤ 1
        · simp [walkLoop, SNMP_ERR_NOERROR, SNMP_ERR_TOOBIG, ht, hm] at hp
          simp [hp]
        · simp [walkLoop, SNMP_ERR_NOERROR, SNMP_ERR_TOOBIG, ht, hm] at hp
          rcases hp with rfl | hp
          · simp
          · rcases walkLoop_trace_bounds rest name (m / 2) p hp with ⟨h1, h2⟩
            exact ⟨by omega, fun _ => h2 (by omega)⟩
      · simp [walkLoop, SNMP_ERR_NOERROR, SNMP_ERR_TOOBIG, he, ht] at hp
        simp [hp]

theorem walkLoop_trace_anti : ∀ (resps : List DevResponse) (name : List Nat) (m : Nat),
    List.Pairwise (fun p q : List Nat × Nat => q.2 ≤ p.2) (walkLoop resps name m).trace
  | [], name, m => by rw [walkLoop_nil]; simp
  | .reqErr s :: rest, name, m => by rw [walkLoop_reqErr]; simp
  | .resp e vars s :: rest, name, m => by
    by_cases he : e = (0 : Int)
    · subst he
      by_cases hz : (add_responses vars name).2 = []
      · rw [walkLoop_noerror_boundary vars s rest name m hz]; simp
      · rw [walkLoop_noerror_cont vars s rest name m hz]
        simp only [List.pairwise_cons]
        refine ⟨fun p hp => ?_, walkLoop_trace_anti rest (add_responses vars name).2 m⟩
        exact (walkLoop_trace_bounds rest (add_responses vars name).2 m p hp).1
    · by_cases ht : e = (1 : Int)
      · subst ht
        by_cases hm : m ≤ 1
        · rw [walkLoop_toobig_floor vars s rest name m hm]; simp
        · rw [walkLoop_toobig_halve vars s rest name m hm]
          simp only [List.pairwise_cons]
          refine ⟨fun p hp => ?_, walkLoop_trace_anti rest name (m / 2)⟩
          have := (walkLoop_trace_bounds rest name (m / 2) p hp).1
          omega
      · rw [walkLoop_status e vars s rest name m he ht]; simp

theorem walkLoop_trace_head (r : DevResponse) (rest : List DevResponse)
    (name : List Nat) (m : Nat) :
    (walkLoop (r :: rest) name m).trace.head? = some (name, m) := by
  cases r with
  | reqErr s => simp [walkLoop]
  | resp e vars s =>
    by_cases he : e = (0 : Int)
    · by_cases hz : (add_responses vars name).2 = []
      · simp [walkLoop, SNMP_ERR_NOERROR, he, hz]
      · simp [walkLoop, SNMP_ERR_NOERROR, he, hz]
    · by_cases ht : e = (1 : Int)
      · by_cases hm : m ≤ 1
        · simp [walkLoop, SNMP_ERR_NOERROR, SNMP_ERR_TOOBIG, ht, hm]
        · simp [walkLoop, SNMP_ERR_NOERROR, SNMP_ERR_TOOBIG, ht, hm]
      · simp [walkLoop, SNMP_ERR_NOERROR, SNMP_ERR_TOOBIG, he, ht]

theorem walkLoop_toobig_le : ∀ (resps : List DevResponse) (name : List Nat) (m k : Nat),
    1 ≤ m → m < 2 ^ k →
    (walkLoop resps name m).toobigCount ≤ k ∧ (walkLoop resps name m).halvings + 1 ≤ k
  | [], _name, m, k, hm, hk => by
    have h1 : 1 ≤ 2 ^ k := Nat.one_le_two_pow
    have hk1 : 1 ≤ k := by
      rcases Nat.eq_zero_or_pos k with rfl | h
      · simp at hk; omega
      · exact h
    simp [walkLoop]
    omega
  | .reqErr _s :: _rest, _name, m, k, hm, hk => by
    have hk1 : 1 ≤ k := by
      rcases Nat.eq_zero_or_pos k with rfl | h
      · simp at hk; omega
      · exact h
    simp [walkLoop]
    omega
  | .resp e vars s :: rest, name, m, k, hm, hk => by
    have hk1 : 1 ≤ k := by
      rcases Nat.eq_zero_or_pos k with rfl | h
      · simp at hk; omega
      · exact h
    by_cases he : e = (0 : Int)
    · by_cases hz : (add_responses vars name).2 = []
      · simp [walkLoop, SNMP_ERR_NOERROR, he, hz]
        omega
      · simpa [walkLoop, SNMP_ERR_NOERROR, he, hz] using
          walkLoop_toobig_le rest (add_responses vars name).2 m k hm hk
    · by_cases ht : e = (1 : Int)
      · by_cases hmm : m ≤ 1
        · simp [walkLoop, SNMP_ERR_NOERROR, SNMP_ERR_TOOBIG, ht, hmm]
          omega
        · obtain ⟨k', rfl⟩ : ∃ k', k = k' + 1 := ⟨k - 1, by omega⟩
          have hpow : (2 : Nat) ^ (k' + 1) = 2 ^ k' * 2 := pow_succ 2 k'
          have hrec := walkLoop_toobig_le rest name (m / 2) k' (by omega) (by omega)
          simp [walkLoop, SNMP_ERR_NOERROR, SNMP_ERR_TOOBIG, ht, hmm]
          omega
      · simp [walkLoop, SNMP_ERR_NOERROR, SNMP_ERR_TOOBIG, he, ht]
        omega

theorem walkLoop_append : ∀ (a b : List DevResponse) (name : List Nat) (m : Nat),
    (walkLoop a name m).exit = ExitReason.pending →
    walkLoop (a ++ b) name m =
      ⟨(walkLoop a name m).ovs ++
          (walkLoop b (walkLoop a name m).finalName (walkLoop a name m).finalMaxRep).ovs,
        (walkLoop b (walkLoop a name m).finalName (walkLoop a name m).finalMaxRep).errors,
        (walkLoop b (walkLoop a name m).finalName (walkLoop a name m).finalMaxRep).exit,
        (walkLoop a name m).trace ++
          (walkLoop b (walkLoop a name m).finalName (walkLoop a name m).finalMaxRep).trace,
        (walkLoop a name m).toobigCount +
          (walkLoop b (walkLoop a name m).finalName (walkLoop a name m).finalMaxRep).toobigCount,
        (walkLoop a name m).halvings +
          (walkLoop b (walkLoop a name m).finalName (walkLoop a name m).finalMaxRep).halvings,
        (walkLoop b (walkLoop a name m).finalName (walkLoop a name m).finalMaxRep).finalName,
        (walkLoop b (walkLoop a name m).finalName (walkLoop a name m).finalMaxRep).finalMaxRep⟩
  | [], b, name, m, _h => by
    rw [walkLoop_nil]
    simp
  | .reqErr s :: rest, b, name, m, h => by
    rw [walkLoop_reqErr] at h
    simp at h
  | .resp e vars s :: rest, b, name, m, h => by
    by_cases he : e = (0 : Int)
    · subst he
      by_cases hz : (add_responses vars name).2 = []
      · rw [walkLoop_noerror_boundary vars s rest name m hz] at h
        simp at h
      · rw [walkLoop_noerror_cont vars s rest name m hz] at h
        have ih := walkLoop_append rest b (add_responses vars name).2 m h
        rw [List.cons_append, walkLoop_noerror_cont vars s (rest ++ b) name m hz,
          walkLoop_noerror_cont vars s rest name m hz, ih]
        simp [List.append_assoc]
    · by_cases ht : e = (1 : Int)
      · subst ht
        by_cases hm : m ≤ 1
        · rw [walkLoop_toobig_floor vars s rest name m hm] at h
          simp at h
        · rw [walkLoop_toobig_halve vars s rest name m hm] at h
          have ih := walkLoop_append rest b name (m / 2) h
          rw [List.cons_append, walkLoop_toobig_halve vars s (rest ++ b) name m hm,
            walkLoop_toobig_halve vars s rest name m hm, ih]
          simp
          omega
      · rw [walkLoop_status e vars s rest name m he ht] at h
        simp at h

theorem noerrorVars_resp0 (vars : List Binding) (s : String) :
    noerrorVars (.resp 0 vars s) = vars := by
  simp [noerrorVars, SNMP_ERR_NOERROR]

theorem noerrorVars_resp1 (vars : List Binding) (s : String) :
    noerrorVars (.resp 1 vars s) = [] := by
  simp [noerrorVars, SNMP_ERR_NOERROR]

theorem mem_flatten_vars {b : Binding} {resps : List DevResponse} (r : DevResponse)
    (hr : r ∈ resps) (hb : b ∈ noerrorVars r) :
    b ∈ (resps.map noerrorVars).flatten :=
  List.mem_flatten.mpr ⟨noerrorVars r, List.mem_map_of_mem noerrorVars hr, hb⟩

theorem walkLoop_trace_mem : ∀ (resps : List DevResponse) (name : List Nat) (m : Nat),
    (∀ b ∈ (resps.map noerrorVars).flatten, oidLt name b.name) →
    List.Pairwise varsBelow resps →
    ∀ p ∈ (walkLoop resps name m).trace, (p.1 = name ∨ oidLt name p.1) ∧ p.2 ≤ m
  | [], name, m, _hcur, _hpw => by rw [walkLoop_nil]; simp
  | .reqErr s :: rest, name, m, _hcur, _hpw => by
    rw [walkLoop_reqErr]
    simp
  | .resp e vars s :: rest, name, m, hcur, hpw => by
    by_cases he : e = (0 : Int)
    · subst he
      by_cases hz : (add_responses vars name).2 = []
      · rw [walkLoop_noerror_boundary vars s rest name m hz]
        simp
      · rw [walkLoop_noerror_cont vars s rest name m hz]
        intro p hp
        have hcur_rest : ∀ b ∈ (rest.map noerrorVars).flatten, oidLt name b.name := by
          intro b hb
          exact hcur b (by simpa using Or.inr hb)
        have hpw_rest : List.Pairwise varsBelow rest := (List.pairwise_cons.mp hpw).2
        rcases List.mem_cons.mp hp with rfl | hp
        · exact ⟨Or.inl rfl, le_refl m⟩
        · rcases add_responses_cursor vars name with ⟨-, hn⟩ | hn | hn
          · rw [hn] at hp
            exact walkLoop_trace_mem rest name m hcur_rest hpw_rest p hp
          · exact absurd hn hz
          · rcases List.mem_map.mp hn with ⟨v, hv, hveq⟩
            have hnn : oidLt name (add_responses vars name).2 := by
              rw [← hveq]
              exact hcur v (by simp [noerrorVars_resp0]; exact Or.inl hv)
            have hcur' : ∀ b ∈ (rest.map noerrorVars).flatten,
                oidLt (add_responses vars name).2 b.name := by
              intro b hb
              rcases List.mem_flatten.mp hb with ⟨l, hl, hbl⟩
              rcases List.mem_map.mp hl with ⟨r', hr', rfl⟩
              have := (List.pairwise_cons.mp hpw).1 r' hr' v
                (by rw [noerrorVars_resp0]; exact hv) b hbl
              rw [← hveq]
              exact this
            rcases walkLoop_trace_mem rest (add_responses vars name).2 m hcur' hpw_rest p hp
              with ⟨hp1, hp2⟩
            refine ⟨Or.inr ?_, hp2⟩
            rcases hp1 with hp1 | hp1
            · rw [hp1]; exact hnn
            · exact oidLt_trans name (add_responses vars name).2 p.1 hnn hp1
    · by_cases ht : e = (1 : Int)
      · subst ht
        by_cases hm : m ≤ 1
        · rw [walkLoop_toobig_floor vars s rest name m hm]
          simp
        · rw [walkLoop_toobig_halve vars s rest name m hm]
          intro p hp
          have hcur_rest : ∀ b ∈ (rest.map noerrorVars).flatten, oidLt name b.name := by
            intro b hb
            exact hcur b (by simpa using Or.inr hb)
          have hpw_rest : List.Pairwise varsBelow rest := (List.pairwise_cons.mp hpw).2
          rcases List.mem_cons.mp hp with rfl | hp
          · exact ⟨Or.inl rfl, le_refl m⟩
          · rcases walkLoop_trace_mem rest name (m / 2) hcur_rest hpw_rest p hp with ⟨hp1, hp2⟩
            exact ⟨hp1, by omega⟩
      · rw [walkLoop_status e vars s rest name m he ht]
        simp

theorem walkLoop_trace_pairwise : ∀ (resps : List DevResponse) (name : List Nat) (m : Nat),
    (∀ r ∈ resps, nonemptyNoerror r) →
    (∀ b ∈ (resps.map noerrorVars).flatten, oidLt name b.name) →
    List.Pairwise varsBelow resps →
    List.Pairwise (fun p q : List Nat × Nat => oidLt p.1 q.1 ∨ (p.1 = q.1 ∧ q.2 < p.2))
      (walkLoop resps name m).trace
  | [], name, m, _hne, _hcur, _hpw => by rw [walkLoop_nil]; simp
  | .reqErr s :: rest, name, m, _hne, _hcur, _hpw => by
    rw [walkLoop_reqErr]
    simp
  | .resp e vars s :: rest, name, m, hne, hcur, hpw => by
    have hne_rest : ∀ r ∈ rest, nonemptyNoerror r :=
      fun r hr => hne r (List.mem_cons_of_mem _ hr)
    have hcur_rest : ∀ b ∈ (rest.map noerrorVars).flatten, oidLt name b.name := by
      intro b hb
      refine hcur b ?_
      simp only [List.map_cons, List.flatten_cons, List.mem_append]
      exact Or.inr hb
    have hpw_rest : List.Pairwise varsBelow rest := (List.pairwise_cons.mp hpw).2
    by_cases he : e = (0 : Int)
    · subst he
      by_cases hz : (add_responses vars name).2 = []
      · rw [walkLoop_noerror_boundary vars s rest name m hz]
        simp
      · rw [walkLoop_noerror_cont vars s rest name m hz]
        have hvars : vars ≠ [] := by
          have := hne _ (List.mem_cons_self _ rest)
          exact this (by simp [SNMP_ERR_NOERROR])
        have hn : (add_responses vars name).2 ∈ vars.map Binding.name := by
          rcases add_responses_cursor vars name with ⟨hv, -⟩ | hn | hn
          · exact absurd hv hvars
          · exact absurd hn hz
          · exact hn
        rcases List.mem_map.mp hn with ⟨v, hv, hveq⟩
        have hnn : oidLt name (add_responses vars name).2 := by
          rw [← hveq]
          refine hcur v ?_
          simp only [List.map_cons, List.flatten_cons, List.mem_append, noerrorVars_resp0]
          exact Or.inl hv
        have hcur' : ∀ b ∈ (rest.map noerrorVars).flatten,
            oidLt (add_responses vars name).2 b.name := by
          intro b hb
          rcases List.mem_flatten.mp hb with ⟨l, hl, hbl⟩
          rcases List.mem_map.mp hl with ⟨r', hr', rfl⟩
          have := (List.pairwise_cons.mp hpw).1 r' hr' v
            (by rw [noerrorVars_resp0]; exact hv) b hbl
          rw [← hveq]
          exact this
        simp only [List.pairwise_cons]
        refine ⟨fun p hp => ?_,
          walkLoop_trace_pairwise rest (add_responses vars name).2 m hne_rest hcur' hpw_rest⟩
        rcases walkLoop_trace_mem rest (add_responses vars name).2 m hcur' hpw_rest p hp
          with ⟨hp1, -⟩
        refine Or.inl ?_
        rcases hp1 with hp1 | hp1
        · rw [hp1]; exact hnn
        · exact oidLt_trans name (add_responses vars name).2 p.1 hnn hp1
    · by_cases ht : e = (1 : Int)
      · subst ht
        by_cases hm : m ≤ 1
        · rw [walkLoop_toobig_floor vars s rest name m hm]
          simp
        · rw [walkLoop_toobig_halve vars s rest name m hm]
          simp only [List.pairwise_cons]
          refine ⟨fun p hp => ?_,
            walkLoop_trace_pairwise rest name (m / 2) hne_rest hcur_rest hpw_rest⟩
          rcases walkLoop_trace_mem rest name (m / 2) hcur_rest hpw_rest p hp with ⟨hp1, hp2⟩
          rcases hp1 with hp1 | hp1
          · exact Or.inr ⟨hp1.symm, by omega⟩
          · exact Or.inl hp1
      · rw [walkLoop_status e vars s rest name m he ht]
        simp

theorem bulkwalk_none (resps : List DevResponse) :
    bulkwalk none resps =
      ⟨⟨(walkLoop resps PRINTER_OID MAX_REPETITIONS).ovs,
          (walkLoop resps PRINTER_OID MAX_REPETITIONS).errors⟩,
        (walkLoop resps PRINTER_OID MAX_REPETITIONS).exit,
        (walkLoop resps PRINTER_OID MAX_REPETITIONS).trace,
        (walkLoop resps PRINTER_OID MAX_REPETITIONS).toobigCount,
        (walkLoop resps PRINTER_OID MAX_REPETITIONS).halvings, 1⟩ := rfl

theorem bulkwalk_some (s : String) (resps : List DevResponse) :
    bulkwalk (some s) resps =
      ⟨⟨[], ["Open SNMP session error: " ++ s]⟩, .openFail, [], 0, 0, 0⟩ := rfl

/-- C1 counterexample: against a device that answers NOERROR with zero
variable bindings, the loop re-enters the Requesting state twice with
the identical cursor `PRINTER_OID` and the identical
`max_repetitions = 64`, so the claimed progress property fails. -/
theorem c1_progress_counterexample :
    (bulkwalk none [DevResponse.resp 0 [] "", DevResponse.resp 0 [] ""]).trace
        = [(PRINTER_OID, 64), (PRINTER_OID, 64)] ∧
      ¬ List.Pairwise (fun p q => p ≠ q)
          (bulkwalk none [DevResponse.resp 0 [] "", DevResponse.resp 0 [] ""]).trace := by
  decide

/-- C1 (amended): for every well-behaved device — every NOERROR batch
non-empty, all returned OIDs lexicographically above the root, and
strictly increasing across batches — no iteration of the request loop
re-enters the Requesting state with both the same cursor OID and the
same maxRepetitions as a previous iteration. -/
theorem c1_progress_amended (resps : List DevResponse) (h : wellBehaved resps) :
    List.Pairwise (fun p q => p ≠ q) (bulkwalk none resps).trace := by
  obtain ⟨hne, hcur, hpw⟩ := h
  rw [bulkwalk_none]
  have hp := walkLoop_trace_pairwise resps PRINTER_OID MAX_REPETITIONS hne hcur hpw
  refine hp.imp ?_
  intro p q hpq
  rintro rfl
  rcases hpq with h1 | ⟨-, h2⟩
  · exact oidLt_irrefl p.1 h1
  · omega

/-- C1 witness: a concrete well-behaved two-batch run satisfies the
hypotheses of the amended theorem. -/
theorem c1_progress_amended_witness :
    List.Pairwise (fun p q => p ≠ q)
      (bulkwalk none [DevResponse.resp 0 [Binding.mk [1, 3, 6, 1, 2, 1, 43, 5] "a"] "",
          DevResponse.resp 0 [Binding.mk [1, 3, 6, 1, 2, 1, 44] "z"] ""]).trace :=
  c1_progress_amended
    [DevResponse.resp 0 [Binding.mk [1, 3, 6, 1, 2, 1, 43, 5] "a"] "",
      DevResponse.resp 0 [Binding.mk [1, 3, 6, 1, 2, 1, 44] "z"] ""]
    (by unfold wellBehaved; decide)

/-- C2: every OID-value pair of every bulkwalk response has an OID with
at least 7 components whose first 7 components equal the fixed root
`PRINTER_OID` = 1.3.6.1.2.1.43 component-wise. -/
theorem c2_values_under_root (openErr : Option String) (resps : List DevResponse) :
    ∀ ov ∈ (bulkwalk openErr resps).response.ovs,
      PRINTER_OID_LEN ≤ ov.name.length ∧ ov.name.take PRINTER_OID_LEN = PRINTER_OID := by
  intro ov hov
  match openErr with
  | some s =>
    rw [bulkwalk_some] at hov
    simp at hov
  | none =>
    rw [bulkwalk_none] at hov
    exact walkLoop_ovs_mem resps PRINTER_OID MAX_REPETITIONS ov hov

/-- C2 witness: a concrete accepted pair from a one-batch walk. -/
theorem c2_values_under_root_witness :
    PRINTER_OID_LEN ≤ ([1, 3, 6, 1, 2, 1, 43, 1] : List Nat).length ∧
      ([1, 3, 6, 1, 2, 1, 43, 1] : List Nat).take PRINTER_OID_LEN = PRINTER_OID :=
  c2_values_under_root none [DevResponse.resp 0 [Binding.mk [1, 3, 6, 1, 2, 1, 43, 1] "v"] ""]
    (OidValue.mk [1, 3, 6, 1, 2, 1, 43, 1] "v") (by decide)

/-- C3: within a walk, max-repetitions starts at 64 (the first request,
if any, uses `(PRINTER_OID, 64)`), never increases along the request
trace, never drops below 1, at most 7 TOOBIG responses are consumed and
at most 7 halvings occur. -/
theorem c3_maxrep_invariant (openErr : Option String) (resps : List DevResponse) :
    ((bulkwalk openErr resps).trace.head? = none ∨
        (bulkwalk openErr resps).trace.head? = some (PRINTER_OID, MAX_REPETITIONS)) ∧
      (∀ p ∈ (bulkwalk openErr resps).trace, 1 ≤ p.2 ∧ p.2 ≤ MAX_REPETITIONS) ∧
      List.Pairwise (fun p q : List Nat × Nat => q.2 ≤ p.2) (bulkwalk openErr resps).trace ∧
      (bulkwalk openErr resps).toobigCount ≤ 7 ∧
      (bulkwalk openErr resps).halvings ≤ 7 := by
  match openErr with
  | some s =>
    rw [bulkwalk_some]
    simp
  | none =>
    rw [bulkwalk_none]
    dsimp only
    have hbd := walkLoop_toobig_le resps PRINTER_OID MAX_REPETITIONS 7
      (by norm_num [MAX_REPETITIONS]) (by norm_num [MAX_REPETITIONS])
    refine ⟨?_, ?_, walkLoop_trace_anti resps PRINTER_OID MAX_REPETITIONS, hbd.1, by omega⟩
    · cases resps with
      | nil => left; simp [walkLoop_nil]
      | cons r rest => right; exact walkLoop_trace_head r rest PRINTER_OID MAX_REPETITIONS
    · intro p hp
      rcases walkLoop_trace_bounds resps PRINTER_OID MAX_REPETITIONS p hp with ⟨h1, h2⟩
      exact ⟨h2 (by norm_num [MAX_REPETITIONS]), h1⟩

/-- C3 witness: the bounds hold at the concrete first trace entry of a
one-batch walk. -/
theorem c3_maxrep_invariant_witness :
    1 ≤ (PRINTER_OID, MAX_REPETITIONS).2 ∧ (PRINTER_OID, MAX_REPETITIONS).2 ≤ MAX_REPETITIONS :=
  (c3_maxrep_invariant none [DevResponse.resp 0 [] ""]).2.1
    (PRINTER_OID, MAX_REPETITIONS) (by decide)

/-- C4: when the device answers TOOBIG after max-repetitions has reached
its floor 1, the walk halts with exactly the values accepted in earlier
successful batches and an empty error list (silent truncation); any
later responses are never consumed. -/
theorem c4_retry_exhaustion_silent (pre post : List DevResponse) (vars : List Binding)
    (s : String)
    (hp : (walkLoop pre PRINTER_OID MAX_REPETITIONS).exit = ExitReason.pending)
    (h1 : (walkLoop pre PRINTER_OID MAX_REPETITIONS).finalMaxRep = 1) :
    (bulkwalk none (pre ++ DevResponse.resp 1 vars s :: post)).response.ovs
        = (walkLoop pre PRINTER_OID MAX_REPETITIONS).ovs ∧
      (bulkwalk none (pre ++ DevResponse.resp 1 vars s :: post)).response.errors = [] ∧
      (bulkwalk none (pre ++ DevResponse.resp 1 vars s :: post)).exit
        = ExitReason.toobigFloor := by
  rw [bulkwalk_none, walkLoop_append pre (DevResponse.resp 1 vars s :: post)
    PRINTER_OID MAX_REPETITIONS hp, h1,
    walkLoop_toobig_floor vars s post (walkLoop pre PRINTER_OID MAX_REPETITIONS).finalName 1
      (le_refl 1)]
  simp

/-- C4 witness: six TOOBIG responses drive max-repetitions from 64 down
to 1; a seventh TOOBIG then ends the walk silently. -/
theorem c4_retry_exhaustion_silent_witness :
    (bulkwalk none
        ([DevResponse.resp 1 [] "x", DevResponse.resp 1 [] "x", DevResponse.resp 1 [] "x",
            DevResponse.resp 1 [] "x", DevResponse.resp 1 [] "x", DevResponse.resp 1 [] "x"] ++
          DevResponse.resp 1 [] "x" :: [])).response.errors = [] :=
  (c4_retry_exhaustion_silent
    [DevResponse.resp 1 [] "x", DevResponse.resp 1 [] "x", DevResponse.resp 1 [] "x",
      DevResponse.resp 1 [] "x", DevResponse.resp 1 [] "x", DevResponse.resp 1 [] "x"]
    [] [] "x" (by decide) (by decide)).2.1

/-- C5: when opening the session fails, the response has no values,
exactly the one error message wrapping the open failure, and no GETBULK
request is ever issued (empty request trace). -/
theorem c5_open_failure (s : String) (resps : List DevResponse) :
    (bulkwalk (some s) resps).response.ovs = [] ∧
      (bulkwalk (some s) resps).response.errors = ["Open SNMP session error: " ++ s] ∧
      (bulkwalk (some s) resps).trace = [] := by
  rw [bulkwalk_some]
  exact ⟨rfl, rfl, rfl⟩

/-- C6: a transport/session-level executor error, or a protocol status
other than NOERROR and TOOBIG, appends exactly one descriptive message
(with the numeric status when available), halts the walk (later
responses are never consumed), and retains every previously accepted
OID-value pair. -/
theorem c6_error_halts (pre post : List DevResponse) (s : String) (e : Int)
    (vars : List Binding) (es : String)
    (hp : (walkLoop pre PRINTER_OID MAX_REPETITIONS).exit = ExitReason.pending)
    (he : e ≠ 0) (ht : e ≠ 1) :
    ((bulkwalk none (pre ++ DevResponse.reqErr s :: post)).response.ovs
        = (walkLoop pre PRINTER_OID MAX_REPETITIONS).ovs ∧
      (bulkwalk none (pre ++ DevResponse.reqErr s :: post)).response.errors
        = ["SNMP request error: " ++ s] ∧
      (bulkwalk none (pre ++ DevResponse.reqErr s :: post)).exit = ExitReason.reqError) ∧
    ((bulkwalk none (pre ++ DevResponse.resp e vars es :: post)).response.ovs
        = (walkLoop pre PRINTER_OID MAX_REPETITIONS).ovs ∧
      (bulkwalk none (pre ++ DevResponse.resp e vars es :: post)).response.errors
        = ["SNMP response error (" ++ toString e ++ "): " ++ es] ∧
      (bulkwalk none (pre ++ DevResponse.resp e vars es :: post)).exit
        = ExitReason.statusError) := by
  constructor
  · rw [bulkwalk_none,
      walkLoop_append pre (DevResponse.reqErr s :: post) PRINTER_OID MAX_REPETITIONS hp,
      walkLoop_reqErr]
    simp
  · rw [bulkwalk_none,
      walkLoop_append pre (DevResponse.resp e vars es :: post) PRINTER_OID MAX_REPETITIONS hp,
      walkLoop_status e vars es post (walkLoop pre PRINTER_OID MAX_REPETITIONS).finalName
        (walkLoop pre PRINTER_OID MAX_REPETITIONS).finalMaxRep he ht]
    simp

/-- C6 witness: a first-response genErr (status 5) halts the walk with
the one status message. -/
theorem c6_error_halts_witness :
    (bulkwalk none ([] ++ DevResponse.resp 5 [] "generr" :: [])).exit
      = ExitReason.statusError :=
  (c6_error_halts [] [] "t" 5 [] "generr" (by decide) (by decide) (by decide)).2.2.2

/-- C7: in a NOERROR batch whose bindings are some in-subtree ones
followed by the first out-of-subtree binding `b` (of any shape,
including OIDs shorter than 7), the walker accepts exactly the
in-subtree bindings before `b`, stops the walk there (ignoring the rest
of the batch and all later responses), keeps all values from this and
prior batches, and records no error. -/
theorem c7_boundary (rs post' : List DevResponse) (pre : List Binding) (b : Binding)
    (post : List Binding) (es : String)
    (hp : (walkLoop rs PRINTER_OID MAX_REPETITIONS).exit = ExitReason.pending)
    (hpre : ∀ v ∈ pre, underRoot v) (hb : ¬ underRoot b) :
    (bulkwalk none (rs ++ DevResponse.resp 0 (pre ++ b :: post) es :: post')).response.ovs
        = (walkLoop rs PRINTER_OID MAX_REPETITIONS).ovs ++ pre.map ovOf ∧
      (bulkwalk none (rs ++ DevResponse.resp 0 (pre ++ b :: post) es :: post')).response.errors
        = [] ∧
      (bulkwalk none (rs ++ DevResponse.resp 0 (pre ++ b :: post) es :: post')).exit
        = ExitReason.boundary := by
  have hab := add_responses_boundary pre b post
    (walkLoop rs PRINTER_OID MAX_REPETITIONS).finalName hpre hb
  rw [bulkwalk_none,
    walkLoop_append rs (DevResponse.resp 0 (pre ++ b :: post) es :: post')
      PRINTER_OID MAX_REPETITIONS hp,
    walkLoop_noerror_boundary (pre ++ b :: post) es post'
      (walkLoop rs PRINTER_OID MAX_REPETITIONS).finalName
      (walkLoop rs PRINTER_OID MAX_REPETITIONS).finalMaxRep (by rw [hab])]
  simp [hab]

/-- C7 witness: a batch with one in-subtree binding followed by an
out-of-subtree one ends the walk at the boundary. -/
theorem c7_boundary_witness :
    (bulkwalk none ([] ++ DevResponse.resp 0
        ([Binding.mk [1, 3, 6, 1, 2, 1, 43, 2] "a"] ++ Binding.mk [9] "z" :: []) "" :: [])).exit
      = ExitReason.boundary :=
  (c7_boundary [] [] [Binding.mk [1, 3, 6, 1, 2, 1, 43, 2] "a"] (Binding.mk [9] "z") [] ""
    (by decide) (by decide) (by decide)).2.2

/-- C8: a TOOBIG received while maxRepetitions exceeds 1 leaves the
value list, the error list and the walk outcome exactly those of the
continuation at the halved batch size; the next request (if any) starts
at the unchanged cursor OID, so a recovered TOOBIG is never observable
in the returned response. -/
theorem c8_toobig_transparent (vars : List Binding) (s : String) (rest : List DevResponse)
    (name : List Nat) (m : Nat) (hm : 1 < m) :
    (walkLoop (DevResponse.resp 1 vars s :: rest) name m).ovs
        = (walkLoop rest name (m / 2)).ovs ∧
      (walkLoop (DevResponse.resp 1 vars s :: rest) name m).errors
        = (walkLoop rest name (m / 2)).errors ∧
      (walkLoop (DevResponse.resp 1 vars s :: rest) name m).exit
        = (walkLoop rest name (m / 2)).exit ∧
      (walkLoop (DevResponse.resp 1 vars s :: rest) name m).trace
        = (name, m) :: (walkLoop rest name (m / 2)).trace ∧
      (rest ≠ [] → (walkLoop rest name (m / 2)).trace.head? = some (name, m / 2)) := by
  rw [walkLoop_toobig_halve vars s rest name m (by omega)]
  refine ⟨rfl, rfl, rfl, rfl, fun hrest => ?_⟩
  cases rest with
  | nil => exact absurd rfl hrest
  | cons r rest' => exact walkLoop_trace_head r rest' name (m / 2)

/-- C8 witness: one TOOBIG at 64 followed by one NOERROR batch. -/
theorem c8_toobig_transparent_witness :
    (walkLoop (DevResponse.resp 1 [] "x" :: [DevResponse.resp 0 [] ""]) PRINTER_OID 64).trace
      = (PRINTER_OID, 64) :: (walkLoop [DevResponse.resp 0 [] ""] PRINTER_OID (64 / 2)).trace :=
  (c8_toobig_transparent [] "x" [DevResponse.resp 0 [] ""] PRINTER_OID 64 (by decide)).2.2.2.1

/-- C9 counterexample: on the open-failure exit path `bulkwalk` returns
before `snmp_sess_close`, so close is invoked zero times, not exactly
once. -/
theorem c9_close_counterexample :
    (bulkwalk (some "timeout") []).closeCount = 0 ∧
      ¬ (bulkwalk (some "timeout") []).closeCount = 1 := by
  decide

/-- C9 (amended): `snmp_sess_close` is invoked exactly once on every
walk whose session opens successfully, and never on the open-failure
path (where no session was opened, so none is left open either way). -/
theorem c9_close_amended :
    (∀ resps : List DevResponse, (bulkwalk none resps).closeCount = 1) ∧
      (∀ (s : String) (resps : List DevResponse), (bulkwalk (some s) resps).closeCount = 0) :=
  ⟨fun _resps => rfl, fun _s _resps => rfl⟩

/-- C10: for every invocation of bulkwalk and every possible sequence of
device responses, the error list of the returned response contains at
most one message. -/
theorem c10_errors_at_most_one (openErr : Option String) (resps : List DevResponse) :
    (bulkwalk openErr resps).response.errors.length ≤ 1 := by
  match openErr with
  | some s =>
    rw [bulkwalk_some]
    simp
  | none =>
    rw [bulkwalk_none]
    exact walkLoop_errors_len resps PRINTER_OID MAX_REPETITIONS

end Snmp
